import Mathlib

/-!
Verification of the Boostly peer-recognition credit ledger.

Shallow embedding of the repository's ledger core:
  - `src/models.py`   — table rows (`User`, `Recognition`, `Endorsement`,
    `Redemption`, `AuditLog`) become Lean structures;
  - `src/schemas.py`  — pydantic request validation becomes decidable
    predicates on request structures;
  - `src/audit.py`    — `log_action` (its `try/except` swallows any write
    failure) becomes a total function parameterised by whether the
    underlying store write fails;
  - `src/main.py`     — each route handler becomes a pure function from a
    `LedgerState` (the database content) and the authenticated actor's id
    to either an error (`HTTPException` in the source) or the new state
    plus the response payload.

Python integers are `Int`; SQL autoincrement primary keys are modelled as
`count + 1` (the tables are insert-only, so this coincides with the
database's behaviour); `datetime.date` keeps only the year/month/day
fields the code reads.  Timestamps (`datetime.utcnow` defaults) and the
bcrypt digest of a password come from outside the repository and are not
observed by any property below, so they are dropped / kept abstractly.
-/

namespace Boostly

/-- Calendar date, as Python's `datetime.date`: the code only ever reads
the `year` and `month` components (plus stores the whole value). -/
structure PyDate where
  year : Nat
  month : Nat
  day : Nat
deriving DecidableEq

/-- Account row, from `src/models.py` lines 5-18 (`class User`).  The
field defaults there (`grant_balance = 100`, `sent_this_month = 0`,
`redeemable_balance = 0`, `total_received = 0`, `last_reset_date = None`)
are applied by `register_user` below, exactly as the `User(...)`
constructor applies them in `src/main.py` line 39. -/
structure User where
  id : Int
  name : String
  email : String
  password_hash : Option String
  grant_balance : Int
  sent_this_month : Int
  redeemable_balance : Int
  total_received : Int
  last_reset_date : Option PyDate
deriving DecidableEq

/-- RecognitionEvent row, `src/models.py` lines 20-26 (timestamp field
dropped: never read by the ledger logic). -/
structure Recognition where
  id : Int
  sender_id : Int
  receiver_id : Int
  credits : Int
  note : Option String
deriving DecidableEq

/-- EndorsementEvent row, `src/models.py` lines 28-32.  Note the table has
no uniqueness constraint on `(recognition_id, endorser_id)`: uniqueness is
only checked by a query in the `endorse` handler. -/
structure Endorsement where
  id : Int
  recognition_id : Int
  endorser_id : Int
deriving DecidableEq

/-- RedemptionEvent row, `src/models.py` lines 34-39. -/
structure Redemption where
  id : Int
  user_id : Int
  credits : Int
  value_in_inr : Int
deriving DecidableEq

/-- One element of the `user_details` list built by `reset_month`
(`src/main.py` lines 252-257). -/
structure ResetUserDetail where
  user_id : Int
  old_balance : Int
  new_balance : Int
  carry_forward : Int
deriving DecidableEq

/-- The `details` JSON dict of an audit entry.  The source stores an
untyped dict; one constructor per action keeps exactly the keys the
handlers put in (`src/main.py` lines 51, 153-161, 192-196, 222-226,
268-274). -/
inductive AuditDetails where
  | createUserDetails (name : String) (email : String)
  | recognizeDetails (sender_id : Int) (receiver_id : Int)
      (receiver_name : String) (credits : Int) (note : Option String)
      (sender_balance_after : Int) (receiver_balance_after : Int)
  | endorseDetails (recognition_id : Int) (endorser_id : Int)
      (endorser_name : String)
  | redeemDetails (credits : Int) (voucher_inr : Int) (balance_after : Int)
  | resetMonthDetails (reset_date : PyDate) (users_reset : Nat)
      (admin_id : Int) (admin_name : String)
      (user_resets : List ResetUserDetail)
deriving DecidableEq

/-- AuditLog row, `src/models.py` lines 41-49 (timestamp dropped). -/
structure AuditLog where
  user_id : Option Int
  action : String
  entity_type : Option String
  entity_id : Option Int
  details : AuditDetails
  ip_address : Option String
deriving DecidableEq

/-- The whole database content relevant to the ledger (the five tables of
`src/models.py`). -/
structure LedgerState where
  users : List User
  recognitions : List Recognition
  endorsements : List Endorsement
  redemptions : List Redemption
  audit_logs : List AuditLog
deriving DecidableEq

/-- The `HTTPException`s raised by the handlers, named after the spec's
error taxonomy (§7); each constructor's comment gives the exact source
raise site. -/
inductive ApiError where
  /-- pydantic rejects the request body before the handler runs
  (`src/schemas.py`). -/
  | validationError
  /-- `get_current_user` fails: the authenticated id has no row
  (`src/auth.py` lines 115-122). -/
  | notAuthenticated
  /-- `HTTPException(400, "Email already registered")`, `src/main.py`
  line 33. -/
  | emailAlreadyRegistered
  /-- `HTTPException(400, "Cannot send credits to yourself")`, line 125. -/
  | selfRecognition
  /-- `HTTPException(400, "Insufficient grant balance to send")`,
  line 129. -/
  | insufficientGrantBalance
  /-- `HTTPException(400, "Monthly sending limit exceeded")`, line 131. -/
  | monthlyLimitExceeded
  /-- `HTTPException(404, "Receiver not found")`, line 134. -/
  | receiverNotFound
  /-- `HTTPException(400, "Invalid recognition ID")`, line 170. -/
  | invalidRecognitionId
  /-- `HTTPException(404, "Recognition not found")`, line 174. -/
  | recognitionNotFound
  /-- `HTTPException(400, "Already endorsed")`, line 179. -/
  | duplicateEndorsement
  /-- `HTTPException(400, "Insufficient redeemable balance")`, line 207. -/
  | insufficientRedeemableBalance
deriving DecidableEq

/-- Request body of `POST /recognize`, `src/schemas.py` lines 34-45. -/
structure RecognizeRequest where
  receiver_id : Int
  credits : Int
  note : Option String
deriving DecidableEq

/-- Length of an optional note, for the `max_length=500` field bound. -/
def noteLen : Option String → Nat
  | none => 0
  | some s => s.length

/-- Field constraints of `RecognizeRequest` (`receiver_id` `gt=0`,
`credits` `gt=0, le=100`, `note` `max_length=500`). -/
def RecognizeRequest.valid (req : RecognizeRequest) : Prop :=
  0 < req.receiver_id ∧ 0 < req.credits ∧ req.credits ≤ 100 ∧
    noteLen req.note ≤ 500

instance (req : RecognizeRequest) : Decidable req.valid := by
  unfold RecognizeRequest.valid; infer_instance

/-- Python's `str.strip()`: drop leading and trailing whitespace.
(Lean's own `String.trim` is defined by well-founded recursion over byte
positions, which the kernel cannot evaluate; this structural
reimplementation over the character list is used instead.) -/
def pyStrip (s : String) : String :=
  ⟨(((s.data.dropWhile Char.isWhitespace).reverse.dropWhile
      Char.isWhitespace).reverse)⟩

/-- The `note` validator of `RecognizeRequest` (`src/schemas.py` lines
39-45): strip whitespace, turn an empty result into `None`. -/
def normalizeNote : Option String → Option String
  | none => none
  | some v => let v := pyStrip v; if v = "" then none else some v

/-- Request body of `POST /redeem`, `src/schemas.py` lines 47-48
(`credits` `gt=0, le=10000`). -/
structure RedeemRequest where
  credits : Int
deriving DecidableEq

def RedeemRequest.valid (req : RedeemRequest) : Prop :=
  0 < req.credits ∧ req.credits ≤ 10000

instance (req : RedeemRequest) : Decidable req.valid := by
  unfold RedeemRequest.valid; infer_instance

/-- Request body of `POST /register`, `src/schemas.py` lines 5-20.
`EmailStr` well-formedness is validated by an external library and is not
modelled; the in-repo constraints (name length 1-100 and non-blank,
password length 8-100) are. -/
structure CreateUserRequest where
  name : String
  email : String
  password : String
deriving DecidableEq

def CreateUserRequest.valid (req : CreateUserRequest) : Prop :=
  1 ≤ req.name.length ∧ req.name.length ≤ 100 ∧ pyStrip req.name ≠ "" ∧
    8 ≤ req.password.length ∧ req.password.length ≤ 100

instance (req : CreateUserRequest) : Decidable req.valid := by
  unfold CreateUserRequest.valid; infer_instance

/-- Password hashing (`src/auth.py` `hash_password`) delegates to the
external bcrypt library; the model keeps only the data flow (which
password was hashed), since nothing in the ledger reads the digest. -/
def hash_password (password : String) : String :=
  "bcrypt$" ++ password

/-- Response of `POST /recognize`, `src/schemas.py` lines 62-64. -/
structure RecognitionResponse where
  status : String
  recognition_id : Int
deriving DecidableEq

/-- Response of `POST /redeem`, `src/schemas.py` lines 66-68. -/
structure RedemptionResponse where
  status : String
  voucher_inr : Int
deriving DecidableEq

/-- Response of `POST /recognitions/{id}/endorse`, `src/schemas.py`
lines 70-71. -/
structure EndorsementResponse where
  status : String
deriving DecidableEq

/-- Response of `POST /admin/reset_month`: the handler returns the dict
`{"status": "ok", "users_reset": reset_count}` (`src/main.py` line 278)
and nothing else. -/
structure ResetMonthResponse where
  status : String
  users_reset : Nat
deriving DecidableEq

/-- Audit write, `src/audit.py` `log_action` lines 28-42: build the entry,
`session.add`, `session.flush`, all inside `try`; any exception is caught,
printed and discarded, so the function always returns.  `writeFails`
models the underlying store write raising: then the entry is simply not
persisted. -/
def log_action (writeFails : Bool) (logs : List AuditLog)
    (entry : AuditLog) : List AuditLog :=
  if writeFails then logs else logs ++ [entry]

/-- Next autoincrement primary key of an insert-only table with `n`
rows. -/
def nextId (n : Nat) : Int :=
  (n : Int) + 1

/-- Point lookup of an account row by primary key (`session.get(User, id)`
/ the refresh of an already-authenticated user). -/
def getUser (st : LedgerState) (uid : Int) : Option User :=
  st.users.find? (fun u => decide (u.id = uid))

/-- Commit of a mutated account row: the row with the same primary key is
replaced. -/
def updateUser (st : LedgerState) (nu : User) : LedgerState :=
  { st with users := st.users.map (fun u => if u.id = nu.id then nu else u) }

/-- Handler of `POST /register`, `src/main.py` lines 26-55: reject a
duplicate email, create the row with the `models.py` defaults, append the
audit entry. -/
def register_user (st : LedgerState) (req : CreateUserRequest)
    (ip : Option String) (auditFails : Bool) :
    Except ApiError (LedgerState × User) :=
  if req.valid then
    match st.users.find? (fun u => decide (u.email = req.email)) with
    | some _ => .error .emailAlreadyRegistered
    | none =>
      let u : User :=
        { id := nextId st.users.length
          name := pyStrip req.name
          email := req.email
          password_hash := some (hash_password req.password)
          grant_balance := 100
          sent_this_month := 0
          redeemable_balance := 0
          total_received := 0
          last_reset_date := none }
      let st1 := { st with users := st.users ++ [u] }
      let entry : AuditLog :=
        { user_id := none, action := "create_user"
          entity_type := some "user", entity_id := some u.id
          details := .createUserDetails u.name u.email, ip_address := ip }
      .ok ({ st1 with audit_logs := log_action auditFails st1.audit_logs entry }, u)
  else .error .validationError

/-- Handler of `POST /recognize`, `src/main.py` lines 122-165.  The actor
is the already-authenticated sender (`Depends(get_current_user)`), looked
up / refreshed from the store; then the handler's checks in source order:
self-recognition (line 124), grant balance (line 128), monthly cap
(line 130), receiver existence (line 132); then the atomic mutation of
both rows plus the event insert (lines 136-143), then the audit entry
(lines 147-164). -/
def recognize (st : LedgerState) (senderId : Int) (req : RecognizeRequest)
    (ip : Option String) (auditFails : Bool) :
    Except ApiError (LedgerState × RecognitionResponse) :=
  if req.valid then
    match getUser st senderId with
    | none => .error .notAuthenticated
    | some sender =>
      if sender.id = req.receiver_id then .error .selfRecognition
      else if sender.grant_balance < req.credits then
        .error .insufficientGrantBalance
      else if sender.sent_this_month + req.credits > 100 then
        .error .monthlyLimitExceeded
      else
        match getUser st req.receiver_id with
        | none => .error .receiverNotFound
        | some receiver =>
          let recId : Int := nextId st.recognitions.length
          let recEvent : Recognition :=
            { id := recId, sender_id := sender.id
              receiver_id := req.receiver_id, credits := req.credits
              note := normalizeNote req.note }
          let sender' :=
            { sender with
              grant_balance := sender.grant_balance - req.credits
              sent_this_month := sender.sent_this_month + req.credits }
          let receiver' :=
            { receiver with
              redeemable_balance := receiver.redeemable_balance + req.credits
              total_received := receiver.total_received + req.credits }
          let st1 := updateUser (updateUser st sender') receiver'
          let st2 := { st1 with recognitions := st1.recognitions ++ [recEvent] }
          let entry : AuditLog :=
            { user_id := some sender.id, action := "recognize"
              entity_type := some "recognition", entity_id := some recId
              details := .recognizeDetails sender.id req.receiver_id
                receiver.name req.credits (normalizeNote req.note)
                sender'.grant_balance receiver'.redeemable_balance
              ip_address := ip }
          .ok ({ st2 with audit_logs := log_action auditFails st2.audit_logs entry },
               { status := "ok", recognition_id := recId })
  else .error .validationError

/-- Read phase of the `endorse` handler, `src/main.py` lines 168-179: the
id guard, the authenticated endorser, the recognition lookup and the
duplicate check — everything before the first write.  Returns the error
the handler would raise, or `none` when all checks pass. -/
def endorseCheck (st : LedgerState) (recId : Int) (endorserId : Int) :
    Option ApiError :=
  if recId ≤ 0 then some .invalidRecognitionId
  else
    match getUser st endorserId with
    | none => some .notAuthenticated
    | some _ =>
      match st.recognitions.find? (fun r => decide (r.id = recId)) with
      | none => some .recognitionNotFound
      | some _ =>
        match st.endorsements.find?
            (fun e => decide (e.recognition_id = recId ∧ e.endorser_id = endorserId)) with
        | some _ => some .duplicateEndorsement
        | none => none

/-- Write phase of the `endorse` handler, `src/main.py` lines 180-199: the
`Endorsement` insert, the commit and the audit entry.  The store has no
uniqueness constraint on `(recognition_id, endorser_id)` (`src/models.py`
lines 28-32), so this insert succeeds regardless of existing rows: two
sessions that both passed the read phase both insert. -/
def endorseInsert (st : LedgerState) (recId : Int) (endorserId : Int)
    (ip : Option String) (auditFails : Bool) : LedgerState :=
  let eId : Int := nextId st.endorsements.length
  let e : Endorsement :=
    { id := eId, recognition_id := recId, endorser_id := endorserId }
  let st1 := { st with endorsements := st.endorsements ++ [e] }
  let endorserName := ((getUser st endorserId).map User.name).getD ""
  let entry : AuditLog :=
    { user_id := some endorserId, action := "endorse"
      entity_type := some "endorsement", entity_id := some eId
      details := .endorseDetails recId endorserId endorserName
      ip_address := ip }
  { st1 with audit_logs := log_action auditFails st1.audit_logs entry }

/-- Handler of `POST /recognitions/{rec_id}/endorse`, `src/main.py` lines
167-200: read phase then write phase, sequentially in one request. -/
def endorse (st : LedgerState) (recId : Int) (endorserId : Int)
    (ip : Option String) (auditFails : Bool) :
    Except ApiError (LedgerState × EndorsementResponse) :=
  match endorseCheck st recId endorserId with
  | some e => .error e
  | none => .ok (endorseInsert st recId endorserId ip auditFails,
                 { status := "ok" })

/-- Handler of `POST /redeem`, `src/main.py` lines 202-230. -/
def redeem (st : LedgerState) (userId : Int) (req : RedeemRequest)
    (ip : Option String) (auditFails : Bool) :
    Except ApiError (LedgerState × RedemptionResponse) :=
  if req.valid then
    match getUser st userId with
    | none => .error .notAuthenticated
    | some user =>
      if user.redeemable_balance < req.credits then
        .error .insufficientRedeemableBalance
      else
        let user' :=
          { user with redeemable_balance := user.redeemable_balance - req.credits }
        let voucher_value := req.credits * 5
        let redId : Int := nextId st.redemptions.length
        let red : Redemption :=
          { id := redId, user_id := user.id, credits := req.credits
            value_in_inr := voucher_value }
        let st1 := updateUser st user'
        let st2 := { st1 with redemptions := st1.redemptions ++ [red] }
        let entry : AuditLog :=
          { user_id := some user.id, action := "redeem"
            entity_type := some "redemption", entity_id := some redId
            details := .redeemDetails req.credits voucher_value
              user'.redeemable_balance
            ip_address := ip }
        .ok ({ st2 with audit_logs := log_action auditFails st2.audit_logs entry },
             { status := "ok", voucher_inr := voucher_value })
  else .error .validationError

/-- Mutation applied to one eligible account by the reset loop,
`src/main.py` lines 244-257: `unused = max(0, grant)`,
`carry = min(50, unused)`, new grant `100 + carry`, counter cleared, reset
marker set; plus the before/after record appended to `user_details`. -/
def resetApply (today : PyDate) (u : User) : User × ResetUserDetail :=
  let unused := max 0 u.grant_balance
  let carry := min 50 unused
  let old_balance := u.grant_balance
  let u' := { u with grant_balance := 100 + carry, sent_this_month := 0
                     last_reset_date := some today }
  (u', { user_id := u.id, old_balance := old_balance
         new_balance := u'.grant_balance, carry_forward := carry })

/-- One iteration of the reset loop, `src/main.py` lines 240-257: skip
(`continue`) when `last_reset_date` is set and falls in the current
month and year, otherwise apply the reset. -/
def resetOne (today : PyDate) (u : User) : Option (User × ResetUserDetail) :=
  match u.last_reset_date with
  | some d =>
    if d.month = today.month ∧ d.year = today.year then none
    else some (resetApply today u)
  | none => some (resetApply today u)

/-- Eligibility condition of the reset sweep, read off the skip test of
`src/main.py` line 242: an account is reset exactly when its
`last_reset_date` is absent or does not fall in the current calendar
month and year. -/
def resetEligible (today : PyDate) (u : User) : Bool :=
  match u.last_reset_date with
  | none => true
  | some d => !(decide (d.month = today.month ∧ d.year = today.year))

/-- Handler of `POST /admin/reset_month`, `src/main.py` lines 232-278.
`admin` is the already-authenticated admin user
(`Depends(get_current_admin_user)`); `today` is `date.today()`.  Sweeps
every account, counts the resets, builds the per-account before/after
list, puts that list into the audit entry's `details` (lines 262-276) and
returns only `{"status": "ok", "users_reset": reset_count}` (line 278). -/
def reset_month (st : LedgerState) (today : PyDate) (admin : User)
    (ip : Option String) (auditFails : Bool) :
    LedgerState × ResetMonthResponse :=
  let stepped := st.users.map (fun u =>
    match resetOne today u with
    | some (u', d) => (u', some d)
    | none => (u, none))
  let users' := stepped.map Prod.fst
  let user_details := stepped.filterMap Prod.snd
  let reset_count := user_details.length
  let entry : AuditLog :=
    { user_id := some admin.id, action := "reset_month"
      entity_type := some "system", entity_id := none
      details := .resetMonthDetails today reset_count admin.id admin.name
        user_details
      ip_address := ip }
  ({ st with users := users'
             audit_logs := log_action auditFails st.audit_logs entry },
   { status := "ok", users_reset := reset_count })

/-- One invocation of a ledger operation: which engine operation, with
which already-authenticated actor and arguments. -/
inductive Op where
  | recognizeOp (senderId : Int) (req : RecognizeRequest)
  | endorseOp (recId : Int) (endorserId : Int)
  | redeemOp (userId : Int) (req : RedeemRequest)
  | resetMonthOp (today : PyDate) (admin : User)
deriving DecidableEq

/-- Success payload of a ledger operation. -/
inductive OpResult where
  | recognized (r : RecognitionResponse)
  | endorsed (r : EndorsementResponse)
  | redeemed (r : RedemptionResponse)
  | monthReset (r : ResetMonthResponse)
deriving DecidableEq

/-- Run one operation against the store.  A raised `HTTPException` aborts
the request before any commit, so on error the store is unchanged. -/
def runOp (st : LedgerState) (op : Op) (ip : Option String)
    (auditFails : Bool) : LedgerState × Except ApiError OpResult :=
  match op with
  | .recognizeOp senderId req =>
    match recognize st senderId req ip auditFails with
    | .ok (st', r) => (st', .ok (.recognized r))
    | .error e => (st, .error e)
  | .endorseOp recId endorserId =>
    match endorse st recId endorserId ip auditFails with
    | .ok (st', r) => (st', .ok (.endorsed r))
    | .error e => (st, .error e)
  | .redeemOp userId req =>
    match redeem st userId req ip auditFails with
    | .ok (st', r) => (st', .ok (.redeemed r))
    | .error e => (st, .error e)
  | .resetMonthOp today admin =>
    let (st', r) := reset_month st today admin ip auditFails
    (st', .ok (.monthReset r))

/-- One call: operation plus request-level context (client address, and
whether the audit write will fail). -/
structure Call where
  op : Op
  ip : Option String
  audit_fails : Bool

/-- Run a sequence of calls against the store. -/
def runCalls (st : LedgerState) (calls : List Call) : LedgerState :=
  calls.foldl (fun s c => (runOp s c.op c.ip c.audit_fails).1) st

/-- Balance-counter invariant of one account, as claimed: grant and
redeemable balances non-negative, sent-this-month between 0 and 100. -/
def ValidUser (u : User) : Prop :=
  0 ≤ u.grant_balance ∧ 0 ≤ u.redeemable_balance ∧
    0 ≤ u.sent_this_month ∧ u.sent_this_month ≤ 100

instance (u : User) : Decidable (ValidUser u) := by
  unfold ValidUser; infer_instance

/-- The invariant holds for every account in the store. -/
def ValidState (st : LedgerState) : Prop :=
  ∀ u ∈ st.users, ValidUser u

instance (st : LedgerState) : Decidable (ValidState st) :=
  List.decidableBAll _ _

/-- A state with the audit log cleared, to compare two runs of one
operation up to the audit trail. -/
def eraseAuditLogs (st : LedgerState) : LedgerState :=
  { st with audit_logs := [] }

/-- The per-account before/after records carried by `reset_month` audit
entries in a state's audit trail (used to ask whether the operation's
returned value also carries them). -/
def resetRecordsOf (st : LedgerState) : List (List ResetUserDetail) :=
  st.audit_logs.filterMap (fun l =>
    match l.details with
    | .resetMonthDetails _ _ _ _ rs => some rs
    | _ => none)

/-- Whether a handler call succeeded (no `HTTPException` raised). -/
def opOk {α : Type} : Except ApiError α → Bool
  | .ok _ => true
  | .error _ => false

/-- The sender row after a successful recognition of `credits` credits:
grant balance decremented, sent-this-month incremented. -/
def senderAfter (sender : User) (credits : Int) : User :=
  { sender with grant_balance := sender.grant_balance - credits
                sent_this_month := sender.sent_this_month + credits }

/-- The receiver row after a successful recognition of `credits` credits:
redeemable balance and total received each incremented. -/
def receiverAfter (receiver : User) (credits : Int) : User :=
  { receiver with redeemable_balance := receiver.redeemable_balance + credits
                  total_received := receiver.total_received + credits }

/-! Concrete fixtures for witnesses and counterexamples. -/

/-- Admin account (id 1, as `get_current_admin_user` requires). -/
def adminW : User :=
  { id := 1, name := "Admin", email := "admin@x.io", password_hash := none
    grant_balance := 100, sent_this_month := 0, redeemable_balance := 0
    total_received := 0, last_reset_date := none }

def todayW : PyDate := { year := 2025, month := 1, day := 15 }

def C9stA : LedgerState :=
  { users := [{ id := 2, name := "A", email := "a@x.io", password_hash := none
                grant_balance := 120, sent_this_month := 5
                redeemable_balance := 0, total_received := 0
                last_reset_date := none }]
    recognitions := [], endorsements := [], redemptions := [], audit_logs := [] }

def C9stB : LedgerState :=
  { users := [{ id := 2, name := "A", email := "a@x.io", password_hash := none
                grant_balance := 10, sent_this_month := 5
                redeemable_balance := 0, total_received := 0
                last_reset_date := none }]
    recognitions := [], endorsements := [], redemptions := [], audit_logs := [] }

def C5st : LedgerState :=
  { users := [{ id := 2, name := "A", email := "a@x.io", password_hash := none
                grant_balance := 37, sent_this_month := 80
                redeemable_balance := 4, total_received := 9
                last_reset_date := some { year := 2024, month := 12, day := 31 } }]
    recognitions := [], endorsements := [], redemptions := [], audit_logs := [] }

def C5d1 : PyDate := { year := 2025, month := 1, day := 5 }

def C5d2 : PyDate := { year := 2025, month := 1, day := 20 }

/-- Sender of the concrete recognition scenario (spec scenario 1). -/
def C2sender : User :=
  { id := 1, name := "S", email := "s@x.io", password_hash := none
    grant_balance := 100, sent_this_month := 0, redeemable_balance := 0
    total_received := 0, last_reset_date := none }

/-- Receiver of the concrete recognition scenario. -/
def C2receiver : User :=
  { id := 2, name := "R", email := "r@x.io", password_hash := none
    grant_balance := 100, sent_this_month := 0, redeemable_balance := 5
    total_received := 7, last_reset_date := none }

def C2st : LedgerState :=
  { users := [C2sender, C2receiver]
    recognitions := [], endorsements := [], redemptions := [], audit_logs := [] }

def C2req : RecognizeRequest := { receiver_id := 2, credits := 30, note := none }

/-- Self-recognition request: user 1 sending to themselves. -/
def C3req : RecognizeRequest := { receiver_id := 1, credits := 10, note := none }

/-- Account with 20 redeemable credits (spec scenario 3). -/
def C6user : User :=
  { id := 2, name := "R", email := "r@x.io", password_hash := none
    grant_balance := 100, sent_this_month := 0, redeemable_balance := 20
    total_received := 20, last_reset_date := none }

def C6st : LedgerState :=
  { users := [C6user]
    recognitions := [], endorsements := [], redemptions := [], audit_logs := [] }

def C6req : RedeemRequest := { credits := 20 }

/-- Store with one recognition (user 1 → user 2) and a third user who
endorses it. -/
def C7st : LedgerState :=
  { users := [C2sender, C2receiver,
      { id := 3, name := "E", email := "e@x.io", password_hash := none
        grant_balance := 100, sent_this_month := 0, redeemable_balance := 0
        total_received := 0, last_reset_date := none }]
    recognitions := [{ id := 1, sender_id := 1, receiver_id := 2
                       credits := 10, note := none }]
    endorsements := [], redemptions := [], audit_logs := [] }

def C10req : CreateUserRequest :=
  { name := "New User", email := "new@x.io", password := "password1" }

def C1calls : List Call :=
  [ { op := .recognizeOp 1 C2req, ip := none, audit_fails := false }
  , { op := .endorseOp 1 2, ip := none, audit_fails := true }
  , { op := .redeemOp 2 { credits := 10 }, ip := some "10.0.0.1", audit_fails := false }
  , { op := .resetMonthOp todayW adminW, ip := none, audit_fails := false }
  , { op := .recognizeOp 2 { receiver_id := 1, credits := 100, note := some "hi" }, ip := none, audit_fails := false } ]

/-! Helper lemmas about row lookup and row replacement. -/

theorem find_map_override_ne (l : List User) (nu : User) (uid : Int) (h : nu.id ≠ uid) :
    (l.map (fun u => if u.id = nu.id then nu else u)).find? (fun u => decide (u.id = uid))
      = l.find? (fun u => decide (u.id = uid)) := by
  induction l with
  | nil => rfl
  | cons a l ih =>
    simp only [List.map_cons]
    by_cases ha : a.id = uid
    · have hb : ¬ a.id = nu.id := fun hh => h (by rw [← hh, ha])
      rw [if_neg hb, List.find?_cons_of_pos _ (by simp [ha]),
        List.find?_cons_of_pos _ (by simp [ha])]
    · by_cases hb : a.id = nu.id
      · rw [if_pos hb, List.find?_cons_of_neg _ (by simp [h]),
          List.find?_cons_of_neg _ (by simp [ha]), ih]
      · rw [if_neg hb, List.find?_cons_of_neg _ (by simp [ha]),
          List.find?_cons_of_neg _ (by simp [ha]), ih]

theorem find_map_override_self (l : List User) (nu : User) (uid : Int) (hid : nu.id = uid)
    (h : (l.find? (fun u => decide (u.id = uid))).isSome) :
    (l.map (fun u => if u.id = nu.id then nu else u)).find? (fun u => decide (u.id = uid))
      = some nu := by
  induction l with
  | nil => simp [List.find?] at h
  | cons a l ih =>
    by_cases ha : a.id = uid
    · simp only [List.map_cons, if_pos (ha.trans hid.symm)]
      rw [List.find?_cons_of_pos _ (by simp [hid])]
    · have h' : (l.find? (fun u => decide (u.id = uid))).isSome := by
        rwa [List.find?_cons_of_neg _ (by simp [ha])] at h
      have hb : ¬ a.id = nu.id := fun hh => ha (hh.trans hid)
      simp only [List.map_cons, if_neg hb]
      rw [List.find?_cons_of_neg _ (by simp [ha])]
      exact ih h'

theorem find?_append_none {α : Type} (p : α → Bool) (l1 l2 : List α)
    (h : l1.find? p = none) : (l1 ++ l2).find? p = l2.find? p := by
  induction l1 with
  | nil => simp
  | cons a l ih =>
    by_cases hpa : p a
    · rw [List.find?_cons_of_pos _ hpa] at h; cases h
    · rw [List.find?_cons_of_neg _ hpa] at h
      simp only [List.cons_append]
      rw [List.find?_cons_of_neg _ hpa]
      exact ih h

theorem getUser_id (st : LedgerState) (uid : Int) (u : User)
    (h : getUser st uid = some u) : u.id = uid := by
  have := List.find?_some h
  simpa using this

theorem getUser_mem (st : LedgerState) (uid : Int) (u : User)
    (h : getUser st uid = some u) : u ∈ st.users :=
  List.mem_of_find?_eq_some h

theorem getUser_update_ne (st : LedgerState) (nu : User) (uid : Int)
    (h : nu.id ≠ uid) : getUser (updateUser st nu) uid = getUser st uid :=
  find_map_override_ne st.users nu uid h

theorem getUser_update_self (st : LedgerState) (nu : User) (uid : Int)
    (hid : nu.id = uid) (h : (getUser st uid).isSome) :
    getUser (updateUser st nu) uid = some nu :=
  find_map_override_self st.users nu uid hid h

/-! Helper lemmas about the reset sweep. -/

theorem resetOne_eq (today : PyDate) (u : User) :
    resetOne today u =
      if resetEligible today u then some (resetApply today u) else none := by
  unfold resetOne resetEligible
  cases u.last_reset_date with
  | none => simp
  | some d =>
    by_cases hm : d.month = today.month ∧ d.year = today.year
    · simp [hm]
    · simp [hm]

theorem length_filterMap_ite {α β : Type} (p : α → Bool) (f : α → β) (l : List α) :
    (l.filterMap (fun u => if p u then some (f u) else none)).length
      = l.countP p := by
  induction l with
  | nil => rfl
  | cons a l ih =>
    by_cases h : p a
    · simp [List.filterMap_cons, List.countP_cons, h, ih]
    · simp [List.filterMap_cons, List.countP_cons, h, ih]

theorem reset_month_users (st : LedgerState) (today : PyDate) (admin : User)
    (ip : Option String) (auditFails : Bool) :
    ((reset_month st today admin ip auditFails).1).users =
      st.users.map (fun u =>
        if resetEligible today u then
          { u with grant_balance := 100 + min 50 (max 0 u.grant_balance)
                   sent_this_month := 0, last_reset_date := some today }
        else u) := by
  unfold reset_month
  simp only [List.map_map]
  apply List.map_congr_left
  intro u _
  simp only [Function.comp]
  rw [resetOne_eq]
  by_cases h : resetEligible today u
  · simp [h, resetApply]
  · simp [h]

theorem reset_month_details (st : LedgerState) (today : PyDate) (admin : User)
    (ip : Option String) (auditFails : Bool) :
    (reset_month st today admin ip auditFails).2.users_reset
        = st.users.countP (resetEligible today) ∧
    ((reset_month st today admin ip auditFails).1).audit_logs
        = log_action auditFails st.audit_logs
            { user_id := some admin.id, action := "reset_month"
              entity_type := some "system", entity_id := none
              details := .resetMonthDetails today
                (st.users.countP (resetEligible today)) admin.id admin.name
                (st.users.filterMap (fun u =>
                  if resetEligible today u then
                    some { user_id := u.id, old_balance := u.grant_balance
                           new_balance := 100 + min 50 (max 0 u.grant_balance)
                           carry_forward := min 50 (max 0 u.grant_balance) }
                  else none))
              ip_address := ip } := by
  unfold reset_month
  have hdet : (st.users.map (fun u =>
        match resetOne today u with
        | some (u', d) => (u', some d)
        | none => (u, none))).filterMap Prod.snd
      = st.users.filterMap (fun u =>
          if resetEligible today u then
            some { user_id := u.id, old_balance := u.grant_balance
                   new_balance := 100 + min 50 (max 0 u.grant_balance)
                   carry_forward := min 50 (max 0 u.grant_balance) }
          else none) := by
    rw [List.filterMap_map]
    apply List.filterMap_congr
    intro u _
    simp only [Function.comp]
    rw [resetOne_eq]
    by_cases h : resetEligible today u
    · simp [h, resetApply]
    · simp [h]
  have hlen : (st.users.filterMap (fun u =>
          if resetEligible today u then
            some ({ user_id := u.id, old_balance := u.grant_balance
                    new_balance := 100 + min 50 (max 0 u.grant_balance)
                    carry_forward := min 50 (max 0 u.grant_balance) } : ResetUserDetail)
          else none)).length = st.users.countP (resetEligible today) :=
    length_filterMap_ite _ _ _
  constructor
  · simp only [hdet, hlen]
  · simp only [hdet, hlen]

theorem resetEligible_false_iff (today : PyDate) (u : User) :
    resetEligible today u = false ↔
      ∃ d, u.last_reset_date = some d ∧ d.month = today.month ∧
        d.year = today.year := by
  unfold resetEligible
  cases h : u.last_reset_date with
  | none => simp
  | some d => simp

/-- After one sweep dated `d1`, no account is eligible for a sweep dated
in the same calendar month and year. -/
theorem reset_month_not_eligible (st : LedgerState) (d1 d2 : PyDate)
    (a1 : User) (ip1 : Option String) (af1 : Bool)
    (hm : d1.month = d2.month) (hy : d1.year = d2.year) :
    ∀ u ∈ ((reset_month st d1 a1 ip1 af1).1).users,
      resetEligible d2 u = false := by
  intro u hu
  rw [reset_month_users] at hu
  rcases List.mem_map.mp hu with ⟨v, _, hv⟩
  by_cases he : resetEligible d1 v
  · rw [if_pos he] at hv
    rw [resetEligible_false_iff]
    exact ⟨d1, by rw [← hv], hm, hy⟩
  · rw [if_neg he] at hv
    rcases (resetEligible_false_iff d1 v).mp (Bool.eq_false_iff.mpr he)
      with ⟨d, hd, hdm, hdy⟩
    rw [resetEligible_false_iff]
    exact ⟨d, by rw [← hv]; exact hd, hdm.trans hm, hdy.trans hy⟩

/-! The claim theorems. -/

/-- C4: for every account whose `lastResetDate` is absent or does not fall
in the current calendar month and year, `reset_month` sets its grant
balance to `100 + min 50 (max 0 g)` (`g` the prior grant balance), clears
`sentThisMonth` to 0 and stamps `lastResetDate` with the current date;
every other account is left untouched. -/
theorem C4_reset_carry_formula (st : LedgerState) (today : PyDate)
    (admin : User) (ip : Option String) (auditFails : Bool) :
    ((reset_month st today admin ip auditFails).1).users =
      st.users.map (fun u =>
        if resetEligible today u then
          { u with grant_balance := 100 + min 50 (max 0 u.grant_balance)
                   sent_this_month := 0, last_reset_date := some today }
        else u) :=
  reset_month_users st today admin ip auditFails

/-- C5: `reset_month` is idempotent per calendar period: a second
invocation dated in the same month and year changes no account and
reports 0 accounts reset. -/
theorem C5_reset_idempotent (st : LedgerState) (d1 d2 : PyDate)
    (a1 a2 : User) (ip1 ip2 : Option String) (af1 af2 : Bool)
    (hm : d1.month = d2.month) (hy : d1.year = d2.year) :
    ((reset_month (reset_month st d1 a1 ip1 af1).1 d2 a2 ip2 af2).1).users
        = ((reset_month st d1 a1 ip1 af1).1).users ∧
    (reset_month (reset_month st d1 a1 ip1 af1).1 d2 a2 ip2 af2).2.users_reset
        = 0 := by
  have hall := reset_month_not_eligible st d1 d2 a1 ip1 af1 hm hy
  constructor
  · rw [reset_month_users]
    have : ∀ u ∈ ((reset_month st d1 a1 ip1 af1).1).users,
        (if resetEligible d2 u then
          { u with grant_balance := 100 + min 50 (max 0 u.grant_balance)
                   sent_this_month := 0, last_reset_date := some d2 }
         else u) = u := by
      intro u hu
      rw [if_neg (by simp [hall u hu])]
    calc ((reset_month st d1 a1 ip1 af1).1).users.map _
        = ((reset_month st d1 a1 ip1 af1).1).users.map id :=
          List.map_congr_left (fun u hu => this u hu)
      _ = _ := List.map_id _
  · rw [(reset_month_details _ d2 a2 ip2 af2).1]
    rw [List.countP_eq_zero]
    intro u hu
    simp [hall u hu]

/-- C5 witness: a store holding one account last reset in December 2024,
swept on 2025-01-05 and again on 2025-01-20. -/
theorem C5_witness :
    C5d1.month = C5d2.month ∧ C5d1.year = C5d2.year ∧
    (((reset_month (reset_month C5st C5d1 adminW none false).1 C5d2 adminW
        none false).1).users
      = ((reset_month C5st C5d1 adminW none false).1).users ∧
     (reset_month (reset_month C5st C5d1 adminW none false).1 C5d2 adminW
        none false).2.users_reset = 0) :=
  ⟨rfl, rfl,
    C5_reset_idempotent C5st C5d1 C5d2 adminW adminW none none false false
      rfl rfl⟩

/-- C9 counterexample: two stores whose single account differs in grant
balance (120 vs 10) produce the very same `reset_month` return value
(`{"status": "ok", "users_reset": 1}`) while their before/after reset
records differ — so the operation's result does not contain the
per-account before/after records; those are only in the audit entry. -/
theorem C9_counterexample :
    (reset_month C9stA todayW adminW none false).2
      = (reset_month C9stB todayW adminW none false).2 ∧
    resetRecordsOf (reset_month C9stA todayW adminW none false).1
      ≠ resetRecordsOf (reset_month C9stB todayW adminW none false).1 := by
  decide

/-- C9 (amended): `reset_month` returns only the status string and the
count of accounts reset; the per-account before/after records (old and
new balance, carry) are emitted in the `reset_month` audit entry's
details. -/
theorem C9_reset_report (st : LedgerState) (today : PyDate) (admin : User)
    (ip : Option String) :
    (reset_month st today admin ip false).2.status = "ok" ∧
    (reset_month st today admin ip false).2.users_reset
        = st.users.countP (resetEligible today) ∧
    ((reset_month st today admin ip false).1).audit_logs
        = st.audit_logs ++
          [{ user_id := some admin.id, action := "reset_month"
             entity_type := some "system", entity_id := none
             details := .resetMonthDetails today
               (st.users.countP (resetEligible today)) admin.id admin.name
               (st.users.filterMap (fun u =>
                 if resetEligible today u then
                   some { user_id := u.id, old_balance := u.grant_balance
                          new_balance := 100 + min 50 (max 0 u.grant_balance)
                          carry_forward := min 50 (max 0 u.grant_balance) }
                 else none))
             ip_address := ip }] := by
  refine ⟨rfl, (reset_month_details st today admin ip false).1, ?_⟩
  have h := (reset_month_details st today admin ip false).2
  simpa [log_action] using h

/-- C2: when all preconditions of Recognize hold, the call succeeds; the
sender's grant balance drops by `credits` and their sent-this-month
counter rises by `credits`; the receiver's redeemable balance and total
received each rise by exactly `credits`; and exactly one RecognitionEvent
is appended, whose identity is the one returned in the response. -/
theorem C2_recognize_effects (st : LedgerState) (senderId : Int)
    (req : RecognizeRequest) (ip : Option String) (af : Bool)
    (sender receiver : User)
    (hv : req.valid)
    (hs : getUser st senderId = some sender)
    (hne : sender.id ≠ req.receiver_id)
    (hbal : req.credits ≤ sender.grant_balance)
    (hcap : sender.sent_this_month + req.credits ≤ 100)
    (hr : getUser st req.receiver_id = some receiver) :
    opOk (recognize st senderId req ip af) = true ∧
    (∀ st1 resp, recognize st senderId req ip af = .ok (st1, resp) →
      resp = { status := "ok", recognition_id := nextId st.recognitions.length } ∧
      getUser st1 senderId = some (senderAfter sender req.credits) ∧
      getUser st1 req.receiver_id = some (receiverAfter receiver req.credits) ∧
      st1.recognitions = st.recognitions ++
        [{ id := nextId st.recognitions.length, sender_id := sender.id
           receiver_id := req.receiver_id, credits := req.credits
           note := normalizeNote req.note }]) := by
  have h1 : ¬ sender.grant_balance < req.credits := not_lt.mpr hbal
  have h2 : ¬ sender.sent_this_month + req.credits > 100 := not_lt.mpr hcap
  have hsid : sender.id = senderId := getUser_id st senderId sender hs
  have hrid : receiver.id = req.receiver_id := getUser_id st req.receiver_id receiver hr
  have hne1 : (senderAfter sender req.credits).id = senderId := hsid
  have hrid2 : (receiverAfter receiver req.credits).id = req.receiver_id := hrid
  have hne2 : (receiverAfter receiver req.credits).id ≠ senderId := by
    show receiver.id ≠ senderId
    rw [hrid, ← hsid]
    exact fun hh => hne hh.symm
  have hred : recognize st senderId req ip af = .ok
      ({ updateUser (updateUser st (senderAfter sender req.credits))
            (receiverAfter receiver req.credits) with
         recognitions := st.recognitions ++
           [{ id := nextId st.recognitions.length, sender_id := sender.id
              receiver_id := req.receiver_id, credits := req.credits
              note := normalizeNote req.note }]
         audit_logs := log_action af st.audit_logs
           { user_id := some sender.id, action := "recognize"
             entity_type := some "recognition"
             entity_id := some (nextId st.recognitions.length)
             details := .recognizeDetails sender.id req.receiver_id
               receiver.name req.credits (normalizeNote req.note)
               (sender.grant_balance - req.credits)
               (receiver.redeemable_balance + req.credits)
             ip_address := ip } },
       { status := "ok", recognition_id := nextId st.recognitions.length }) := by
    unfold recognize
    rw [if_pos hv, hs, hr]
    simp [hne, h1, h2, updateUser, senderAfter, receiverAfter]
  constructor
  · rw [hred]; rfl
  · intro st1 resp hok
    rw [hred] at hok
    simp only [Except.ok.injEq, Prod.mk.injEq] at hok
    obtain ⟨hst, hresp⟩ := hok
    subst hst
    subst hresp
    refine ⟨rfl, ?_, ?_, rfl⟩
    · show getUser (updateUser (updateUser st (senderAfter sender req.credits))
          (receiverAfter receiver req.credits)) senderId = _
      rw [getUser_update_ne _ _ _ hne2,
        getUser_update_self _ _ _ hne1 (by rw [hs]; rfl)]
    · show getUser (updateUser (updateUser st (senderAfter sender req.credits))
          (receiverAfter receiver req.credits)) req.receiver_id = _
      have hsome : (getUser (updateUser st (senderAfter sender req.credits))
          req.receiver_id).isSome := by
        rw [getUser_update_ne _ _ _ (show (senderAfter sender req.credits).id
          ≠ req.receiver_id from hne), hr]
        rfl
      rw [getUser_update_self _ _ _ hrid2 hsome]

/-- C2 witness: spec scenario 1 — a sender with grant balance 100 and 0
sent recognizes a receiver for 30 credits, and the call succeeds. -/
theorem C2_witness : opOk (recognize C2st 1 C2req none false) = true :=
  (C2_recognize_effects C2st 1 C2req none false C2sender C2receiver
    (by decide) (by decide) (by decide) (by decide) (by decide) (by decide)).1

/-- C3: each violated Recognize precondition is reported with its
specific error, checked in the handler's order (self-recognition, then
grant balance, then monthly cap, then receiver existence — the engine
surfaces the first violated precondition it detects, spec §7); and on any
failure the store is unchanged: no balance moves and no RecognitionEvent
is created. -/
theorem C3_recognize_errors (st : LedgerState) (senderId : Int)
    (req : RecognizeRequest) (ip : Option String) (af : Bool) (sender : User)
    (hv : req.valid) (hs : getUser st senderId = some sender) :
    (sender.id = req.receiver_id →
      recognize st senderId req ip af = .error .selfRecognition) ∧
    (sender.id ≠ req.receiver_id → sender.grant_balance < req.credits →
      recognize st senderId req ip af = .error .insufficientGrantBalance) ∧
    (sender.id ≠ req.receiver_id → ¬ sender.grant_balance < req.credits →
      sender.sent_this_month + req.credits > 100 →
      recognize st senderId req ip af = .error .monthlyLimitExceeded) ∧
    (sender.id ≠ req.receiver_id → ¬ sender.grant_balance < req.credits →
      ¬ sender.sent_this_month + req.credits > 100 →
      getUser st req.receiver_id = none →
      recognize st senderId req ip af = .error .receiverNotFound) ∧
    (opOk (recognize st senderId req ip af) = false →
      (runOp st (.recognizeOp senderId req) ip af).1 = st) := by
  refine ⟨?_, ?_, ?_, ?_, ?_⟩
  · intro h0
    simp only [recognize, if_pos hv, hs]
    rw [if_pos h0]
  · intro h0 h1
    simp only [recognize, if_pos hv, hs]
    rw [if_neg h0, if_pos h1]
  · intro h0 h1 h2
    simp only [recognize, if_pos hv, hs]
    rw [if_neg h0, if_neg h1, if_pos h2]
  · intro h0 h1 h2 h3
    simp only [recognize, if_pos hv, hs]
    rw [if_neg h0, if_neg h1, if_neg h2]
    simp only [h3]
  · intro hfail
    unfold runOp
    cases hc : recognize st senderId req ip af with
    | ok p => rw [hc] at hfail; simp [opOk] at hfail
    | error e => simp [hc]

/-- C3 witness: a user recognizing themself is rejected with the
self-recognition error. -/
theorem C3_witness : recognize C2st 1 C3req none false
    = .error .selfRecognition :=
  (C3_recognize_errors C2st 1 C3req none false C2sender
    (by decide) (by decide)).1 (by decide)

/-- C6: with positive credits, a Redeem covered by the redeemable balance
succeeds, debits exactly `credits` and returns a voucher worth exactly
`credits * 5`, recording one RedemptionEvent; an uncovered Redeem fails
with the insufficient-redeemable-balance error and leaves the store
unchanged; and the redeemable balance is never driven negative. -/
theorem C6_redeem (st : LedgerState) (userId : Int) (req : RedeemRequest)
    (ip : Option String) (af : Bool) (user : User)
    (hv : req.valid)
    (hu : getUser st userId = some user) :
    (req.credits ≤ user.redeemable_balance →
      opOk (redeem st userId req ip af) = true) ∧
    (∀ st1 resp, redeem st userId req ip af = .ok (st1, resp) →
      resp = { status := "ok", voucher_inr := req.credits * 5 } ∧
      getUser st1 userId = some { user with
        redeemable_balance := user.redeemable_balance - req.credits } ∧
      st1.redemptions = st.redemptions ++
        [{ id := nextId st.redemptions.length, user_id := user.id
           credits := req.credits, value_in_inr := req.credits * 5 }]) ∧
    (user.redeemable_balance < req.credits →
      redeem st userId req ip af = .error .insufficientRedeemableBalance ∧
      (runOp st (.redeemOp userId req) ip af).1 = st) ∧
    (0 ≤ user.redeemable_balance →
      ∀ st1 resp, redeem st userId req ip af = .ok (st1, resp) →
      ∀ u1, getUser st1 userId = some u1 → 0 ≤ u1.redeemable_balance) := by
  have huid : user.id = userId := getUser_id st userId user hu
  refine ⟨?_, ?_, ?_, ?_⟩
  · intro hcov
    simp only [redeem, if_pos hv, hu]
    rw [if_neg (not_lt.mpr hcov)]
    rfl
  · intro st1 resp hok
    simp only [redeem, if_pos hv, hu] at hok
    by_cases hlt : user.redeemable_balance < req.credits
    · rw [if_pos hlt] at hok; exact absurd hok (by simp)
    · rw [if_neg hlt] at hok
      simp only [Except.ok.injEq, Prod.mk.injEq] at hok
      obtain ⟨hst, hresp⟩ := hok
      subst hst
      subst hresp
      refine ⟨rfl, ?_, rfl⟩
      show getUser (updateUser st
        { user with redeemable_balance := user.redeemable_balance - req.credits })
        userId = _
      rw [getUser_update_self _ _ _ (show ({ user with redeemable_balance :=
        user.redeemable_balance - req.credits } : User).id = userId from huid)
        (by rw [hu]; rfl)]
  · intro hlt
    constructor
    · simp only [redeem, if_pos hv, hu]
      rw [if_pos hlt]
    · unfold runOp
      cases hc : redeem st userId req ip af with
      | ok p =>
        exfalso
        simp only [redeem, if_pos hv, hu] at hc
        rw [if_pos hlt] at hc
        exact absurd hc (by simp)
      | error e => simp [hc]
  · intro hpos st1 resp hok
    simp only [redeem, if_pos hv, hu] at hok
    by_cases hlt : user.redeemable_balance < req.credits
    · rw [if_pos hlt] at hok; exact absurd hok (by simp)
    · rw [if_neg hlt] at hok
      simp only [Except.ok.injEq, Prod.mk.injEq] at hok
      obtain ⟨hst, hresp⟩ := hok
      subst hst
      intro u1 hu1
      have hlook : getUser (updateUser st
          { user with redeemable_balance := user.redeemable_balance - req.credits })
          userId = some { user with redeemable_balance :=
            user.redeemable_balance - req.credits } := by
        rw [getUser_update_self _ _ _ (show ({ user with redeemable_balance :=
          user.redeemable_balance - req.credits } : User).id = userId from huid)
          (by rw [hu]; rfl)]
      have hu1' : getUser (updateUser st
          { user with redeemable_balance := user.redeemable_balance - req.credits })
          userId = some u1 := hu1
      rw [hlook] at hu1'
      simp only [Option.some.injEq] at hu1'
      subst hu1'
      show 0 ≤ user.redeemable_balance - req.credits
      have hge := not_lt.mp hlt
      omega

/-- C6 witness: spec scenario 3 — a user with 20 redeemable credits
redeems 20, and the call succeeds. -/
theorem C6_witness : opOk (redeem C6st 2 C6req none false) = true :=
  (C6_redeem C6st 2 C6req none false C6user (by decide) (by decide)).1
    (by decide)

/-- C7 counterexample: two concurrent Endorse requests for the same
`(recognitionId, endorserId)` pair, interleaved as read-read-write-write.
Both run the handler's read phase against the same committed store and
both pass it (first conjunct: no error, in particular no
DuplicateEndorsement for the second caller); the store has no uniqueness
constraint on the pair, so both write phases then commit, leaving two
EndorsementEvents for the pair (second conjunct).  This contradicts the
claim that the second Endorse always fails with DuplicateEndorsement
regardless of concurrent timing and creates no new event. -/
theorem C7_counterexample :
    endorseCheck C7st 1 3 = none ∧
    ((endorseInsert (endorseInsert C7st 1 3 none false) 1 3 none
        false).endorsements.countP
      (fun e => decide (e.recognition_id = 1 ∧ e.endorser_id = 3))) = 2 := by
  decide

/-- C7 (amended): in sequential execution — the second Endorse starting
only after the first has committed — the second Endorse with the same
`(recognitionId, endorserId)` pair fails with DuplicateEndorsement and
changes nothing; under concurrent interleaving of the handler's read and
write phases, duplicates are possible because uniqueness is only checked
by a query before the insert and the store has no uniqueness
constraint. -/
theorem C7_endorse_unique_sequential (st : LedgerState)
    (recId endorserId : Int) (ip1 ip2 : Option String) (af1 af2 : Bool)
    (st1 : LedgerState) (r1 : EndorsementResponse)
    (h : endorse st recId endorserId ip1 af1 = .ok (st1, r1)) :
    endorse st1 recId endorserId ip2 af2 = .error .duplicateEndorsement ∧
    (runOp st1 (.endorseOp recId endorserId) ip2 af2).1 = st1 := by
  unfold endorse at h
  cases hc : endorseCheck st recId endorserId with
  | some e => rw [hc] at h; exact absurd h (by simp)
  | none =>
    rw [hc] at h
    simp only [Except.ok.injEq, Prod.mk.injEq] at h
    obtain ⟨hst, hr1⟩ := h
    subst hst
    unfold endorseCheck at hc
    by_cases h0 : recId ≤ 0
    · rw [if_pos h0] at hc; exact absurd hc (by simp)
    rw [if_neg h0] at hc
    cases hg : getUser st endorserId with
    | none => simp only [hg] at hc; exact absurd hc (by simp)
    | some endorser =>
      simp only [hg] at hc
      cases hrec : st.recognitions.find? (fun r => decide (r.id = recId)) with
      | none => simp only [hrec] at hc; exact absurd hc (by simp)
      | some rec0 =>
        simp only [hrec] at hc
        cases hfind : st.endorsements.find?
            (fun e => decide (e.recognition_id = recId ∧ e.endorser_id = endorserId)) with
        | some e0 => simp only [hfind] at hc; exact absurd hc (by simp)
        | none =>
          have hg' : getUser (endorseInsert st recId endorserId ip1 af1)
              endorserId = some endorser := hg
          have hrec' : (endorseInsert st recId endorserId ip1
              af1).recognitions.find? (fun r => decide (r.id = recId))
              = some rec0 := hrec
          have hfind2 : (endorseInsert st recId endorserId ip1
              af1).endorsements.find?
              (fun e => decide (e.recognition_id = recId ∧ e.endorser_id = endorserId))
              = some { id := nextId st.endorsements.length
                       recognition_id := recId, endorser_id := endorserId } := by
            show (st.endorsements ++ [_]).find? _ = _
            rw [find?_append_none _ _ _ hfind]
            simp [List.find?]
          have hdup : endorse (endorseInsert st recId endorserId ip1 af1)
              recId endorserId ip2 af2 = .error .duplicateEndorsement := by
            have hchk : endorseCheck (endorseInsert st recId endorserId ip1 af1)
                recId endorserId = some .duplicateEndorsement := by
              unfold endorseCheck
              rw [if_neg h0]
              simp only [hg', hrec', hfind2]
            unfold endorse
            rw [hchk]
          exact ⟨hdup, by unfold runOp; simp [hdup]⟩

/-- C7 witness: after user 3 endorses recognition 1 and that endorsement
commits, a second Endorse by user 3 on recognition 1 is rejected as a
duplicate. -/
theorem C7_witness :
    endorse (endorseInsert C7st 1 3 none false) 1 3 none false
      = .error .duplicateEndorsement :=
  (C7_endorse_unique_sequential C7st 1 3 none none false false
    (endorseInsert C7st 1 3 none false) { status := "ok" } rfl).1

/-- C8: an audit write failure never reaches the caller: for every ledger
operation, the success-or-error outcome is identical whether the audit
write fails or succeeds, the resulting stores agree once the audit trail
is set aside, and in particular the committed account rows are identical
(no rollback of the mutation). -/
theorem C8_audit_failure_isolated (st : LedgerState) (op : Op)
    (ip : Option String) :
    (runOp st op ip true).2 = (runOp st op ip false).2 ∧
    eraseAuditLogs (runOp st op ip true).1
      = eraseAuditLogs (runOp st op ip false).1 ∧
    ((runOp st op ip true).1).users = ((runOp st op ip false).1).users := by
  cases op with
  | recognizeOp sid req =>
    by_cases hv : req.valid
    · cases hs : getUser st sid with
      | none => simp [runOp, recognize, hv, hs]
      | some sender =>
        by_cases h1 : sender.id = req.receiver_id
        · simp [runOp, recognize, hv, hs, h1]
        · by_cases h2 : sender.grant_balance < req.credits
          · simp [runOp, recognize, hv, hs, h1, h2]
          · by_cases h3 : sender.sent_this_month + req.credits > 100
            · simp [runOp, recognize, hv, hs, h1, h2, h3]
            · cases hr : getUser st req.receiver_id with
              | none => simp [runOp, recognize, hv, hs, h1, h2, h3, hr]
              | some receiver =>
                simp [runOp, recognize, hv, hs, h1, h2, h3, hr,
                  eraseAuditLogs, log_action]
    · simp [runOp, recognize, hv]
  | endorseOp recId endorserId =>
    cases hc : endorseCheck st recId endorserId with
    | some e => simp [runOp, endorse, hc]
    | none => simp [runOp, endorse, hc, endorseInsert, eraseAuditLogs, log_action]
  | redeemOp userId req =>
    by_cases hv : req.valid
    · cases hu : getUser st userId with
      | none => simp [runOp, redeem, hv, hu]
      | some user =>
        by_cases hlt : user.redeemable_balance < req.credits
        · simp [runOp, redeem, hv, hu, hlt]
        · simp [runOp, redeem, hv, hu, hlt, eraseAuditLogs, log_action]
    · simp [runOp, redeem, hv]
  | resetMonthOp today admin =>
    simp [runOp, reset_month, eraseAuditLogs, log_action]

/-- C10: a successfully registered account starts with grant balance 100,
0 sent this month, 0 redeemable, 0 total received and no last-reset date,
and is therefore eligible for the next reset sweep whatever its date. -/
theorem C10_new_account_defaults (st : LedgerState) (req : CreateUserRequest)
    (ip : Option String) (af : Bool)
    (hv : req.valid)
    (hfree : st.users.find? (fun u => decide (u.email = req.email)) = none) :
    opOk (register_user st req ip af) = true ∧
    (∀ st1 u, register_user st req ip af = .ok (st1, u) →
      u.grant_balance = 100 ∧ u.sent_this_month = 0 ∧
      u.redeemable_balance = 0 ∧ u.total_received = 0 ∧
      u.last_reset_date = none ∧ u ∈ st1.users ∧
      ∀ d : PyDate, resetEligible d u = true) := by
  constructor
  · simp only [register_user, if_pos hv, hfree]
    rfl
  · intro st1 u hok
    simp only [register_user, if_pos hv, hfree, Except.ok.injEq,
      Prod.mk.injEq] at hok
    obtain ⟨hst, hu⟩ := hok
    subst hst
    subst hu
    refine ⟨rfl, rfl, rfl, rfl, rfl, ?_, fun d => rfl⟩
    simp

/-- C10 witness: registering a fresh email succeeds, producing an account
with the default counters. -/
theorem C10_witness : opOk (register_user C2st C10req none false) = true :=
  (C10_new_account_defaults C2st C10req none false (by decide) (by decide)).1

theorem recognize_preserves_valid (st : LedgerState) (sid : Int)
    (req : RecognizeRequest) (ip : Option String) (af : Bool)
    (st1 : LedgerState) (r : RecognitionResponse)
    (hok : recognize st sid req ip af = .ok (st1, r)) (h : ValidState st) :
    ValidState st1 := by
  unfold recognize at hok
  by_cases hv : req.valid
  · rw [if_pos hv] at hok
    cases hs : getUser st sid with
    | none => simp only [hs] at hok; exact absurd hok (by simp)
    | some sender =>
      simp only [hs] at hok
      by_cases h1 : sender.id = req.receiver_id
      · rw [if_pos h1] at hok; exact absurd hok (by simp)
      rw [if_neg h1] at hok
      by_cases h2 : sender.grant_balance < req.credits
      · rw [if_pos h2] at hok; exact absurd hok (by simp)
      rw [if_neg h2] at hok
      by_cases h3 : sender.sent_this_month + req.credits > 100
      · rw [if_pos h3] at hok; exact absurd hok (by simp)
      rw [if_neg h3] at hok
      cases hr : getUser st req.receiver_id with
      | none => simp only [hr] at hok; exact absurd hok (by simp)
      | some receiver =>
        simp only [hr, Except.ok.injEq, Prod.mk.injEq] at hok
        obtain ⟨hst, hresp⟩ := hok
        subst hst
        obtain ⟨hv1, hv2, hv3, hv4⟩ := hv
        obtain ⟨qs1, qs2, qs3, qs4⟩ := h sender (getUser_mem _ _ _ hs)
        obtain ⟨qr1, qr2, qr3, qr4⟩ := h receiver (getUser_mem _ _ _ hr)
        have hb2 := not_lt.mp h2
        have hb3 := not_lt.mp h3
        have hvr' : ValidUser { receiver with
            redeemable_balance := receiver.redeemable_balance + req.credits
            total_received := receiver.total_received + req.credits } := by
          refine ⟨qr1, ?_, qr3, qr4⟩
          show 0 ≤ receiver.redeemable_balance + req.credits
          omega
        have hvs' : ValidUser { sender with
            grant_balance := sender.grant_balance - req.credits
            sent_this_month := sender.sent_this_month + req.credits } := by
          refine ⟨?_, qs2, ?_, ?_⟩
          · show 0 ≤ sender.grant_balance - req.credits
            omega
          · show 0 ≤ sender.sent_this_month + req.credits
            omega
          · show sender.sent_this_month + req.credits ≤ 100
            omega
        intro u hu
        simp only [updateUser, List.map_map, List.mem_map,
          Function.comp] at hu
        obtain ⟨a, ha, rfl⟩ := hu
        split
        · split
          · exact hvr'
          · exact hvs'
        · split
          · exact hvr'
          · exact h a ha
  · rw [if_neg hv] at hok; exact absurd hok (by simp)

theorem redeem_preserves_valid (st : LedgerState) (uid : Int)
    (req : RedeemRequest) (ip : Option String) (af : Bool)
    (st1 : LedgerState) (r : RedemptionResponse)
    (hok : redeem st uid req ip af = .ok (st1, r)) (h : ValidState st) :
    ValidState st1 := by
  unfold redeem at hok
  by_cases hv : req.valid
  · rw [if_pos hv] at hok
    cases hu : getUser st uid with
    | none => simp only [hu] at hok; exact absurd hok (by simp)
    | some user =>
      simp only [hu] at hok
      by_cases hlt : user.redeemable_balance < req.credits
      · rw [if_pos hlt] at hok; exact absurd hok (by simp)
      rw [if_neg hlt] at hok
      simp only [Except.ok.injEq, Prod.mk.injEq] at hok
      obtain ⟨hst, hresp⟩ := hok
      subst hst
      obtain ⟨q1, q2, q3, q4⟩ := h user (getUser_mem _ _ _ hu)
      have hge := not_lt.mp hlt
      intro u hu1
      simp only [updateUser, List.mem_map] at hu1
      obtain ⟨a, ha, rfl⟩ := hu1
      split
      · refine ⟨q1, ?_, q3, q4⟩
        show 0 ≤ user.redeemable_balance - req.credits
        omega
      · exact h a ha
  · rw [if_neg hv] at hok; exact absurd hok (by simp)

theorem endorse_preserves_valid (st : LedgerState) (recId eid : Int)
    (ip : Option String) (af : Bool) (st1 : LedgerState)
    (r : EndorsementResponse)
    (hok : endorse st recId eid ip af = .ok (st1, r)) (h : ValidState st) :
    ValidState st1 := by
  unfold endorse at hok
  cases hc : endorseCheck st recId eid with
  | some e => rw [hc] at hok; exact absurd hok (by simp)
  | none =>
    rw [hc] at hok
    simp only [Except.ok.injEq, Prod.mk.injEq] at hok
    obtain ⟨hst, _⟩ := hok
    subst hst
    intro u hu
    exact h u hu

theorem reset_preserves_valid (st : LedgerState) (today : PyDate)
    (admin : User) (ip : Option String) (af : Bool) (h : ValidState st) :
    ValidState (reset_month st today admin ip af).1 := by
  intro u hu
  rw [reset_month_users] at hu
  rcases List.mem_map.mp hu with ⟨a, ha, rfl⟩
  by_cases he : resetEligible today a
  · rw [if_pos he]
    obtain ⟨q1, q2, q3, q4⟩ := h a ha
    refine ⟨?_, q2, le_refl 0, by norm_num⟩
    show (0 : Int) ≤ 100 + min 50 (max 0 a.grant_balance)
    have h0 : (0 : Int) ≤ min 50 (max 0 a.grant_balance) :=
      le_min (by norm_num) (le_max_left 0 _)
    linarith
  · rw [if_neg he]; exact h a ha

theorem runOp_preserves_valid (st : LedgerState) (op : Op)
    (ip : Option String) (af : Bool) (h : ValidState st) :
    ValidState (runOp st op ip af).1 := by
  cases op with
  | recognizeOp sid req =>
    unfold runOp
    cases hok : recognize st sid req ip af with
    | ok p =>
      obtain ⟨st1, r⟩ := p
      simpa [hok] using recognize_preserves_valid st sid req ip af st1 r hok h
    | error e => simpa [hok] using h
  | endorseOp recId eid =>
    unfold runOp
    cases hok : endorse st recId eid ip af with
    | ok p =>
      obtain ⟨st1, r⟩ := p
      simpa [hok] using endorse_preserves_valid st recId eid ip af st1 r hok h
    | error e => simpa [hok] using h
  | redeemOp uid req =>
    unfold runOp
    cases hok : redeem st uid req ip af with
    | ok p =>
      obtain ⟨st1, r⟩ := p
      simpa [hok] using redeem_preserves_valid st uid req ip af st1 r hok h
    | error e => simpa [hok] using h
  | resetMonthOp today admin =>
    unfold runOp
    simpa using reset_preserves_valid st today admin ip af h

/-- C1: for every store in which every account satisfies the balance
invariant (grant and redeemable balances non-negative, sent-this-month
between 0 and 100), the invariant still holds for every account after any
sequence of Recognize, Endorse, Redeem and ResetMonth calls, whatever
their arguments, client addresses and audit-write outcomes. -/
theorem C1_invariants (st : LedgerState) (calls : List Call)
    (h : ValidState st) : ValidState (runCalls st calls) := by
  induction calls generalizing st with
  | nil => exact h
  | cons c cs ih =>
    exact ih _ (runOp_preserves_valid st c.op c.ip c.audit_fails h)

/-- C1 witness: the two-account store run through a recognition, an
endorsement whose audit write fails, a redemption, a monthly reset and a
second recognition. -/
theorem C1_witness : ValidState (runCalls C2st C1calls) :=
  C1_invariants C2st C1calls (by decide)

end Boostly
